import Mathlib

/-!
Verification of the MIDI message encoding and playback sequencing of the
MidiCppConsole repository. Machine integers (`uint8_t`) are embedded as `Nat`
with explicit `% 256` where the C++ code can overflow; a MIDI message (four
bytes overlaid on a DWORD by the source's union) is a list of four byte
values, zero-initialized as the union zero-initializes `bData`. Platform calls
(`midiOutOpen`, `midiOutShortMsg`, `midiOutClose`) are modelled by a `Platform`
record of the `MMRESULT` status each call reports (0 = `MMSYSERR_NOERROR`),
and the observable effect of a run is a trace of events (calls made) plus an
optional propagated exception.
-/

namespace MidiCpp

/-- A MIDI message: the four bytes of the source's `MidiMessage` union
(`bData[4]`), each in `0..255`. -/
abbrev MidiMessage := List Nat

/-- Embeds `MakeSendNoteMessage` (MidiCppConsole.cpp lines 31-60): status byte
is the Note On signature `0b1001` shifted into the high nibble, OR-ed with the
channel; byte 1 is pitch, byte 2 is velocity, byte 3 stays 0 from the union
zero-initialization. All byte stores go through `% 256` as `uint8_t` does. -/
def MakeSendNoteMessage (channel pitch velocity : Nat) : MidiMessage :=
  let NoteOnSignature : Nat := 9
  let statusByte : Nat := (NoteOnSignature <<< 4) % 256
  let statusByte : Nat := (statusByte ||| channel) % 256
  [statusByte, pitch % 256, velocity % 256, 0]

/-- Embeds `MakeSelectInstrumentMessage` (MidiCppConsole.cpp lines 75-99):
status byte is the Select Instrument signature `0b1100` shifted into the high
nibble, OR-ed with the channel; byte 1 is the instrument, bytes 2 and 3 stay 0
from the union zero-initialization. -/
def MakeSelectInstrumentMessage (channel instrument : Nat) : MidiMessage :=
  let SetInstrumentSignature : Nat := 12
  let statusByte : Nat := (SetInstrumentSignature <<< 4) % 256
  let statusByte : Nat := (statusByte ||| channel) % 256
  [statusByte, instrument % 256, 0, 0]

/-- The status codes the platform MIDI API reports to each call of the
program: `midiOutOpen`, the k-th `midiOutShortMsg`, and `midiOutClose`.
Status 0 is `MMSYSERR_NOERROR`. -/
structure Platform where
  openStatus : Nat
  sendStatus : Nat → Nat
  closeStatus : Nat

/-- Observable events of a run: each platform call made, in order. A `sent`
event records the 4-byte message handed to `midiOutShortMsg`; `slept` records
a `std::this_thread::sleep_for` in milliseconds. -/
inductive Event where
  | opened (deviceId : Nat)
  | sent (message : MidiMessage)
  | slept (milliseconds : Nat)
  | closed
deriving DecidableEq, Repr

/-- The data carried by the `std::invalid_argument` that `VerifyLimit` throws:
its message string names the value, the current value and the maximum. -/
structure RangeViolation where
  valueName : String
  currentValue : Nat
  maxValue : Nat
deriving DecidableEq, Repr

/-- The message string `VerifyLimit` builds for the exception it throws. -/
def RangeViolation.what (rv : RangeViolation) : String :=
  rv.valueName ++ " Current: " ++ toString rv.currentValue ++
    " Max: " ++ toString rv.maxValue

/-- The two exception kinds of the source: `std::invalid_argument` thrown by
`Robust::VerifyLimit`, and `Robust::MidiException` thrown by the `VerifyMidi`
macro when a MIDI API reports a non-success status. -/
inductive MidiError where
  | invalidArgument (rv : RangeViolation)
  | midiException (message : String)
deriving DecidableEq, Repr

/-- Embeds `Robust::VerifyLimit` (MidiCppConsole.cpp lines 160-168): throws
`std::invalid_argument` carrying the value name, the current value and the
maximum when the current value exceeds the maximum. -/
def VerifyLimit (currentValue maxValue : Nat) (valueName : String) :
    Except RangeViolation Unit :=
  if currentValue > maxValue then
    Except.error ⟨valueName, currentValue, maxValue⟩
  else
    Except.ok ()

/-- Embeds the `VerifyMidi` macro (MidiCppConsole.cpp lines 146-156): a
non-success MIDI API status becomes a thrown `MidiException` whose message
embeds the status code. -/
def VerifyMidi (midiFuncResult : Nat) : Option MidiError :=
  if midiFuncResult ≠ 0 then
    some (MidiError.midiException ("Midi Error: " ++ toString midiFuncResult))
  else
    none

/-- Embeds the unchecked `SendMidiNote` (MidiCppConsole.cpp lines 64-73): no
range check, builds the message and hands it to `midiOutShortMsg`, ignoring
the returned status. Its observable effect is the single send event. -/
def SendMidiNote (channel pitch velocity : Nat) : List Event :=
  [Event.sent (MakeSendNoteMessage channel pitch velocity)]

/-- Embeds the unchecked `SelectMidiInstrument` (MidiCppConsole.cpp lines
101-109): no range check, sends the message, ignores the status. -/
def SelectMidiInstrument (channel instrument : Nat) : List Event :=
  [Event.sent (MakeSelectInstrumentMessage channel instrument)]

/-- Embeds the unchecked `PlayNote` (MidiCppConsole.cpp lines 111-131): opens
device 0 ignoring the status, selects Grand Piano on channel 0, sends note 60
at velocity 127, sleeps 3 seconds, silences the note with velocity 0, closes.
No status is ever checked, so the trace never depends on the platform. -/
def PlayNote : List Event :=
  Event.opened 0 ::
    (SelectMidiInstrument 0 0 ++
      SendMidiNote 0 60 127 ++
      Event.slept 3000 ::
      SendMidiNote 0 60 0 ++
      [Event.closed])

namespace Robust

/-- Embeds `Robust::SelectMidiInstrument` (MidiCppConsole.cpp lines 170-182):
verifies channel ≤ 15 and instrument ≤ 127, then sends the message built by
`MakeSelectInstrumentMessage` through `midiOutShortMsg` (the k-th send) and
checks its status with `VerifyMidi`. Returns the events of the calls made and
the propagated exception, if any. -/
def SelectMidiInstrument (p : Platform) (k : Nat) (channel instrument : Nat) :
    List Event × Option MidiError :=
  match VerifyLimit channel 15 "Channel" with
  | Except.error rv => ([], some (MidiError.invalidArgument rv))
  | Except.ok _ =>
  match VerifyLimit instrument 127 "Instrument" with
  | Except.error rv => ([], some (MidiError.invalidArgument rv))
  | Except.ok _ =>
    let midiMessage := MakeSelectInstrumentMessage channel instrument
    ([Event.sent midiMessage], VerifyMidi (p.sendStatus k))

/-- Embeds `Robust::SendMidiNote` (MidiCppConsole.cpp lines 186-210): verifies
channel ≤ 15, pitch ≤ 127 and velocity ≤ 127 in that order, then sends the
message built by `MakeSendNoteMessage` (the k-th send) and checks its status
with `VerifyMidi`. -/
def SendMidiNote (p : Platform) (k : Nat) (channel pitch velocity : Nat) :
    List Event × Option MidiError :=
  match VerifyLimit channel 15 "Channel" with
  | Except.error rv => ([], some (MidiError.invalidArgument rv))
  | Except.ok _ =>
  match VerifyLimit pitch 127 "Pitch" with
  | Except.error rv => ([], some (MidiError.invalidArgument rv))
  | Except.ok _ =>
  match VerifyLimit velocity 127 "Velocity" with
  | Except.error rv => ([], some (MidiError.invalidArgument rv))
  | Except.ok _ =>
    let midiMessage := MakeSendNoteMessage channel pitch velocity
    ([Event.sent midiMessage], VerifyMidi (p.sendStatus k))

/-- Embeds `Robust::PlayNote` (MidiCppConsole.cpp lines 212-240): opens device
0 checking the status, selects instrument 0 on channel 0 (send 0), sends note
60 at velocity 127 (send 1), sleeps 3000 ms, silences the note with velocity 0
(send 2), closes checking the status. Any thrown exception propagates (the
catch block rethrows), skipping every later call. -/
def PlayNote (p : Platform) : List Event × Option MidiError :=
  let openEvents := [Event.opened 0]
  match VerifyMidi p.openStatus with
  | some e => (openEvents, some e)
  | none =>
  match Robust.SelectMidiInstrument p 0 0 0 with
  | (evs, some e) => (openEvents ++ evs, some e)
  | (evs1, none) =>
  match Robust.SendMidiNote p 1 0 60 127 with
  | (evs, some e) => (openEvents ++ evs1 ++ evs, some e)
  | (evs2, none) =>
  let sleepEvents := [Event.slept 3000]
  match Robust.SendMidiNote p 2 0 60 0 with
  | (evs, some e) => (openEvents ++ evs1 ++ evs2 ++ sleepEvents ++ evs, some e)
  | (evs3, none) =>
    (openEvents ++ evs1 ++ evs2 ++ sleepEvents ++ evs3 ++ [Event.closed],
      VerifyMidi p.closeStatus)

end Robust

/-- True exactly on `sent` events; counts transmissions in a trace. -/
def Event.isSent : Event → Bool
  | Event.sent _ => true
  | _ => false

/-- A platform on which every MIDI API call succeeds. -/
def okPlatform : Platform := ⟨0, fun _ => 0, 0⟩

/-- A platform on which `midiOutOpen` fails with status 1 and every other
call succeeds. -/
def failingOpenPlatform : Platform := ⟨1, fun _ => 0, 0⟩

/-- A platform on which open and close succeed but every `midiOutShortMsg`
call reports status 1. -/
def failingSendPlatform : Platform := ⟨0, fun _ => 1, 0⟩

/-- For every channel below 16, OR-ing it into the Note On status byte 144
(`0x90`) stays a byte, has high nibble 9 and low nibble equal to the
channel. -/
theorem noteOn_statusByte_nibbles :
    ∀ c, c < 16 → (144 ||| c) % 256 = 144 ||| c ∧
      (144 ||| c) / 16 = 9 ∧ (144 ||| c) % 16 = c := by decide

/-- For every channel below 16, OR-ing it into the Program Change status byte
192 (`0xC0`) stays a byte, has high nibble 12 and low nibble equal to the
channel. -/
theorem programChange_statusByte_nibbles :
    ∀ c, c < 16 → (192 ||| c) % 256 = 192 ||| c ∧
      (192 ||| c) / 16 = 12 ∧ (192 ||| c) % 16 = c := by decide

/-- C1: for every channel in [0,15], pitch in [0,127], velocity in [0,127],
`MakeSendNoteMessage` returns exactly the four bytes
`[0x90 ||| channel, pitch, velocity, 0]`; byte 0 has high nibble `0x9` and
low nibble `channel`, byte 1 is the pitch, byte 2 the velocity, byte 3 is
zero. -/
theorem C1_encode_note_message (channel pitch velocity : Nat)
    (hc : channel ≤ 15) (hp : pitch ≤ 127) (hv : velocity ≤ 127) :
    MakeSendNoteMessage channel pitch velocity =
      [144 ||| channel, pitch, velocity, 0] ∧
    (144 ||| channel) / 16 = 9 ∧ (144 ||| channel) % 16 = channel := by
  obtain ⟨k1, k2, k3⟩ :=
    noteOn_statusByte_nibbles channel (Nat.lt_succ_of_le hc)
  refine ⟨?_, k2, k3⟩
  simp only [MakeSendNoteMessage]
  norm_num [Nat.shiftLeft_eq, k1, Nat.mod_eq_of_lt (by omega : pitch < 256),
    Nat.mod_eq_of_lt (by omega : velocity < 256)]

/-- Witness for C1 at the spec scenario `EncodeNoteMessage(0, 60, 127)`. -/
theorem C1_encode_note_message_witness :
    MakeSendNoteMessage 0 60 127 = [144 ||| 0, 60, 127, 0] ∧
    (144 ||| 0) / 16 = 9 ∧ (144 ||| 0) % 16 = 0 :=
  C1_encode_note_message 0 60 127 (by decide) (by decide) (by decide)

/-- C2: for every channel in [0,15] and program in [0,127],
`MakeSelectInstrumentMessage` returns exactly the four bytes
`[0xC0 ||| channel, program, 0, 0]`; byte 0 has high nibble `0xC` and low
nibble `channel`, byte 1 is the program, bytes 2 and 3 are zero. -/
theorem C2_encode_program_change_message (channel program : Nat)
    (hc : channel ≤ 15) (hp : program ≤ 127) :
    MakeSelectInstrumentMessage channel program =
      [192 ||| channel, program, 0, 0] ∧
    (192 ||| channel) / 16 = 12 ∧ (192 ||| channel) % 16 = channel := by
  obtain ⟨k1, k2, k3⟩ :=
    programChange_statusByte_nibbles channel (Nat.lt_succ_of_le hc)
  refine ⟨?_, k2, k3⟩
  simp only [MakeSelectInstrumentMessage]
  norm_num [Nat.shiftLeft_eq, k1, Nat.mod_eq_of_lt (by omega : program < 256)]

/-- Witness for C2 at the spec scenario `EncodeProgramChangeMessage(1, 24)`. -/
theorem C2_encode_program_change_message_witness :
    MakeSelectInstrumentMessage 1 24 = [192 ||| 1, 24, 0, 0] ∧
    (192 ||| 1) / 16 = 12 ∧ (192 ||| 1) % 16 = 1 :=
  C2_encode_program_change_message 1 24 (by decide) (by decide)

/-- C3: whenever any data field exceeds 127 or the channel exceeds 15, the
checked note encoder and the checked program-change encoder both fail with
the range-violation exception (`std::invalid_argument` from `VerifyLimit`),
make no platform call (empty trace: no message is produced and nothing is
transmitted) and hence never truncate or wrap the value into output bytes. -/
theorem C3_out_of_range_rejected (p : Platform)
    (k channel pitch velocity instrument : Nat) :
    (15 < channel ∨ 127 < pitch ∨ 127 < velocity →
      (Robust.SendMidiNote p k channel pitch velocity).1 = [] ∧
      ∃ rv, (Robust.SendMidiNote p k channel pitch velocity).2 =
        some (MidiError.invalidArgument rv)) ∧
    (15 < channel ∨ 127 < instrument →
      (Robust.SelectMidiInstrument p k channel instrument).1 = [] ∧
      ∃ rv, (Robust.SelectMidiInstrument p k channel instrument).2 =
        some (MidiError.invalidArgument rv)) := by
  constructor
  · intro h
    simp only [Robust.SendMidiNote, VerifyLimit]
    rcases Nat.lt_or_ge 15 channel with hc | hc
    · simp [hc]
    · rcases Nat.lt_or_ge 127 pitch with hp | hp
      · simp [Nat.not_lt_of_le hc, hp]
      · rcases Nat.lt_or_ge 127 velocity with hv | hv
        · simp [Nat.not_lt_of_le hc, Nat.not_lt_of_le hp, hv]
        · omega
  · intro h
    simp only [Robust.SelectMidiInstrument, VerifyLimit]
    rcases Nat.lt_or_ge 15 channel with hc | hc
    · simp [hc]
    · rcases Nat.lt_or_ge 127 instrument with hi | hi
      · simp [Nat.not_lt_of_le hc, hi]
      · omega

/-- Witness for C3 at channel 16 (note path) and instrument 128 (program
path), on the all-success platform. -/
theorem C3_out_of_range_rejected_witness :
    ((Robust.SendMidiNote okPlatform 0 16 60 127).1 = [] ∧
      ∃ rv, (Robust.SendMidiNote okPlatform 0 16 60 127).2 =
        some (MidiError.invalidArgument rv)) ∧
    ((Robust.SelectMidiInstrument okPlatform 0 0 128).1 = [] ∧
      ∃ rv, (Robust.SelectMidiInstrument okPlatform 0 0 128).2 =
        some (MidiError.invalidArgument rv)) :=
  ⟨(C3_out_of_range_rejected okPlatform 0 16 60 127 0).1
      (Or.inl (by decide)),
    (C3_out_of_range_rejected okPlatform 0 0 60 127 128).2
      (Or.inr (by decide))⟩

/-- C4: when `midiOutOpen` reports a non-success status, `Robust::PlayNote`
propagates the exception built from that status (the spec's
`DeviceUnavailable`) and its trace contains zero `sent` events: no message
reaches the device. -/
theorem C4_open_failure (p : Platform) (h : p.openStatus ≠ 0) :
    (Robust.PlayNote p).2 =
      some (MidiError.midiException
        ("Midi Error: " ++ toString p.openStatus)) ∧
    ((Robust.PlayNote p).1.filter Event.isSent).length = 0 := by
  simp [Robust.PlayNote, VerifyMidi, h, Event.isSent]

/-- Witness for C4 on a platform whose open call fails with status 1. -/
theorem C4_open_failure_witness :
    (Robust.PlayNote failingOpenPlatform).2 =
      some (MidiError.midiException
        ("Midi Error: " ++ toString failingOpenPlatform.openStatus)) ∧
    ((Robust.PlayNote failingOpenPlatform).1.filter Event.isSent).length = 0 :=
  C4_open_failure failingOpenPlatform (by decide)

/-- C7: the range-violation exception identifies the field name, the
offending value and the permitted maximum, and the trace is empty (no
transmission): channel failures report "Channel"/value/15 on both encoders,
pitch failures "Pitch"/value/127, velocity failures "Velocity"/value/127,
instrument failures "Instrument"/value/127. -/
theorem C7_range_violation_details (p : Platform)
    (k channel pitch velocity instrument : Nat) :
    (15 < channel →
      Robust.SendMidiNote p k channel pitch velocity =
        ([], some (MidiError.invalidArgument ⟨"Channel", channel, 15⟩)) ∧
      Robust.SelectMidiInstrument p k channel instrument =
        ([], some (MidiError.invalidArgument ⟨"Channel", channel, 15⟩))) ∧
    (channel ≤ 15 → 127 < pitch →
      Robust.SendMidiNote p k channel pitch velocity =
        ([], some (MidiError.invalidArgument ⟨"Pitch", pitch, 127⟩))) ∧
    (channel ≤ 15 → pitch ≤ 127 → 127 < velocity →
      Robust.SendMidiNote p k channel pitch velocity =
        ([], some (MidiError.invalidArgument ⟨"Velocity", velocity, 127⟩))) ∧
    (channel ≤ 15 → 127 < instrument →
      Robust.SelectMidiInstrument p k channel instrument =
        ([], some (MidiError.invalidArgument ⟨"Instrument", instrument, 127⟩)))
    := by
  refine ⟨fun hc => ?_, fun hc hp => ?_, fun hc hp hv => ?_, fun hc hi => ?_⟩
  · constructor <;>
      simp [Robust.SendMidiNote, Robust.SelectMidiInstrument, VerifyLimit, hc]
  · simp [Robust.SendMidiNote, VerifyLimit, Nat.not_lt_of_le hc, hp]
  · simp [Robust.SendMidiNote, VerifyLimit, Nat.not_lt_of_le hc,
      Nat.not_lt_of_le hp, hv]
  · simp [Robust.SelectMidiInstrument, VerifyLimit, Nat.not_lt_of_le hc, hi]

/-- Witness for C7 at the spec scenario `EncodeNoteMessage(16, 60, 127)`:
the error carries field "Channel", value 16, maximum 15. -/
theorem C7_range_violation_details_witness :
    Robust.SendMidiNote okPlatform 0 16 60 127 =
      ([], some (MidiError.invalidArgument ⟨"Channel", 16, 15⟩)) ∧
    Robust.SelectMidiInstrument okPlatform 0 16 0 =
      ([], some (MidiError.invalidArgument ⟨"Channel", 16, 15⟩)) :=
  (C7_range_violation_details okPlatform 0 16 60 127 0).1 (by decide)

/-- The full trace of a successful `Robust::PlayNote` run: open device 0,
send the Program Change for instrument 0 on channel 0, send Note On 60 at
velocity 127, sleep 3000 ms, send Note On 60 at velocity 0, close. -/
def playNoteFullTrace : List Event :=
  [Event.opened 0,
    Event.sent (MakeSelectInstrumentMessage 0 0),
    Event.sent (MakeSendNoteMessage 0 60 127),
    Event.slept 3000,
    Event.sent (MakeSendNoteMessage 0 60 0),
    Event.closed]

/-- C5: `Robust::PlayNote` performs exactly: open device 0, send the Program
Change, send the Note On (pitch 60, velocity 127), sleep 3000 ms, send the
silencing Note On (velocity 0), close — and when any step fails, every later
step is skipped: the trace stops at the failing call and the exception
propagates. -/
theorem C5_playnote_sequence (p : Platform) :
    (p.openStatus = 0 → p.sendStatus 0 = 0 → p.sendStatus 1 = 0 →
      p.sendStatus 2 = 0 → p.closeStatus = 0 →
      Robust.PlayNote p = (playNoteFullTrace, none)) ∧
    (p.openStatus ≠ 0 →
      Robust.PlayNote p =
        ([Event.opened 0],
          some (MidiError.midiException
            ("Midi Error: " ++ toString p.openStatus)))) ∧
    (p.openStatus = 0 → p.sendStatus 0 ≠ 0 →
      Robust.PlayNote p =
        ([Event.opened 0, Event.sent (MakeSelectInstrumentMessage 0 0)],
          some (MidiError.midiException
            ("Midi Error: " ++ toString (p.sendStatus 0))))) ∧
    (p.openStatus = 0 → p.sendStatus 0 = 0 → p.sendStatus 1 ≠ 0 →
      Robust.PlayNote p =
        ([Event.opened 0, Event.sent (MakeSelectInstrumentMessage 0 0),
            Event.sent (MakeSendNoteMessage 0 60 127)],
          some (MidiError.midiException
            ("Midi Error: " ++ toString (p.sendStatus 1))))) ∧
    (p.openStatus = 0 → p.sendStatus 0 = 0 → p.sendStatus 1 = 0 →
      p.sendStatus 2 ≠ 0 →
      Robust.PlayNote p =
        ([Event.opened 0, Event.sent (MakeSelectInstrumentMessage 0 0),
            Event.sent (MakeSendNoteMessage 0 60 127), Event.slept 3000,
            Event.sent (MakeSendNoteMessage 0 60 0)],
          some (MidiError.midiException
            ("Midi Error: " ++ toString (p.sendStatus 2))))) ∧
    (p.openStatus = 0 → p.sendStatus 0 = 0 → p.sendStatus 1 = 0 →
      p.sendStatus 2 = 0 → p.closeStatus ≠ 0 →
      Robust.PlayNote p =
        (playNoteFullTrace,
          some (MidiError.midiException
            ("Midi Error: " ++ toString p.closeStatus)))) := by
  refine ⟨fun h0 h1 h2 h3 h4 => ?_, fun h0 => ?_, fun h0 h1 => ?_,
    fun h0 h1 h2 => ?_, fun h0 h1 h2 h3 => ?_, fun h0 h1 h2 h3 h4 => ?_⟩ <;>
  simp [Robust.PlayNote, Robust.SelectMidiInstrument, Robust.SendMidiNote,
    VerifyLimit, VerifyMidi, playNoteFullTrace, *]

/-- Witness for C5 on the all-success platform: the run produces the full
six-step trace and no error. -/
theorem C5_playnote_sequence_witness :
    Robust.PlayNote okPlatform = (playNoteFullTrace, none) :=
  (C5_playnote_sequence okPlatform).1 rfl rfl rfl rfl rfl

/-- C6 counterexample: on the valid input channel 0, pitch 60, velocity 127,
when the platform reports send status 1, the checked path differs observably
from the unchecked path: both transmit the same bytes, but
`Robust::SendMidiNote` raises `MidiException` while the unchecked
`SendMidiNote` ignores the status and continues, so the two paths do not
have identical observable behavior on all valid inputs. -/
theorem C6_counterexample :
    Robust.SendMidiNote failingSendPlatform 0 0 60 127 ≠
      (SendMidiNote 0 60 127, none) ∧
    (Robust.SendMidiNote failingSendPlatform 0 0 60 127).2 =
      some (MidiError.midiException "Midi Error: 1") ∧
    (Robust.SendMidiNote failingSendPlatform 0 0 60 127).1 =
      SendMidiNote 0 60 127 := by decide

/-- C6 (amended): on every in-range input, the unchecked path and the
checked path compute byte-identical 4-byte encoded messages and make the
identical platform send call (equal traces, unconditionally); the only
observable difference is error reporting: the checked path raises
`MidiException` exactly when the platform reports a non-success send status
(its error is precisely `VerifyMidi` of that status, `none` on success),
while the unchecked path ignores the status. -/
theorem C6_paths_agree_amended (p : Platform)
    (k channel pitch velocity instrument : Nat)
    (hc : channel ≤ 15) (hp : pitch ≤ 127) (hv : velocity ≤ 127)
    (hi : instrument ≤ 127) :
    (Robust.SendMidiNote p k channel pitch velocity).1 =
      SendMidiNote channel pitch velocity ∧
    (Robust.SendMidiNote p k channel pitch velocity).2 =
      VerifyMidi (p.sendStatus k) ∧
    (Robust.SelectMidiInstrument p k channel instrument).1 =
      SelectMidiInstrument channel instrument ∧
    (Robust.SelectMidiInstrument p k channel instrument).2 =
      VerifyMidi (p.sendStatus k) := by
  refine ⟨?_, ?_, ?_, ?_⟩ <;>
  simp [Robust.SendMidiNote, Robust.SelectMidiInstrument, SendMidiNote,
    SelectMidiInstrument, VerifyLimit, Nat.not_lt_of_le hc,
    Nat.not_lt_of_le hp, Nat.not_lt_of_le hv, Nat.not_lt_of_le hi]

/-- Witness for C6 (amended) at channel 0, pitch 60, velocity 127,
instrument 24 on a platform whose sends fail with status 1: traces still
coincide and the checked error equals `VerifyMidi` of the send status. -/
theorem C6_paths_agree_amended_witness :
    (Robust.SendMidiNote failingSendPlatform 0 0 60 127).1 =
      SendMidiNote 0 60 127 ∧
    (Robust.SendMidiNote failingSendPlatform 0 0 60 127).2 =
      VerifyMidi (failingSendPlatform.sendStatus 0) ∧
    (Robust.SelectMidiInstrument failingSendPlatform 0 0 24).1 =
      SelectMidiInstrument 0 24 ∧
    (Robust.SelectMidiInstrument failingSendPlatform 0 0 24).2 =
      VerifyMidi (failingSendPlatform.sendStatus 0) :=
  C6_paths_agree_amended failingSendPlatform 0 0 60 127 24 (by decide)
    (by decide) (by decide) (by decide)

/-- C8: for every channel in [0,15], pitch in [0,127] and velocity in
[0,127], the velocity-0 note message is byte-identical to the note-off
representation: it shares status byte, pitch byte and byte 3 with the
corresponding note-on and carries 0 as its velocity byte, and the silencing
message `PlayNote` sends (trace position 4) is literally
`MakeSendNoteMessage` at velocity 0 — note-off is not a distinct encoding
operation. -/
theorem C8_note_off_is_velocity_zero (channel pitch velocity : Nat)
    (hc : channel ≤ 15) (hp : pitch ≤ 127) (hv : velocity ≤ 127) :
    (MakeSendNoteMessage channel pitch 0).getD 0 0 =
      (MakeSendNoteMessage channel pitch velocity).getD 0 0 ∧
    (MakeSendNoteMessage channel pitch 0).getD 1 0 =
      (MakeSendNoteMessage channel pitch velocity).getD 1 0 ∧
    (MakeSendNoteMessage channel pitch 0).getD 2 0 = 0 ∧
    (MakeSendNoteMessage channel pitch 0).getD 3 0 =
      (MakeSendNoteMessage channel pitch velocity).getD 3 0 ∧
    playNoteFullTrace.getD 4 Event.closed =
      Event.sent (MakeSendNoteMessage 0 60 0) :=
  ⟨rfl, rfl, rfl, rfl, rfl⟩

/-- Witness for C8 at channel 0, pitch 60, velocity 127. -/
theorem C8_note_off_is_velocity_zero_witness :
    (MakeSendNoteMessage 0 60 0).getD 0 0 =
      (MakeSendNoteMessage 0 60 127).getD 0 0 ∧
    (MakeSendNoteMessage 0 60 0).getD 1 0 =
      (MakeSendNoteMessage 0 60 127).getD 1 0 ∧
    (MakeSendNoteMessage 0 60 0).getD 2 0 = 0 ∧
    (MakeSendNoteMessage 0 60 0).getD 3 0 =
      (MakeSendNoteMessage 0 60 127).getD 3 0 ∧
    playNoteFullTrace.getD 4 Event.closed =
      Event.sent (MakeSendNoteMessage 0 60 0) :=
  C8_note_off_is_velocity_zero 0 60 127 (by decide) (by decide) (by decide)

/-- C9: encoding is deterministic and stateless — both encoders are pure
functions of (channel, data1, data2) alone, so two encodings of the same
logical message are byte-identical. -/
theorem C9_encoding_deterministic
    (c c2 d1 d12 d2 d22 : Nat)
    (hc : c = c2) (h1 : d1 = d12) (h2 : d2 = d22) :
    MakeSendNoteMessage c d1 d2 = MakeSendNoteMessage c2 d12 d22 ∧
    MakeSelectInstrumentMessage c d1 = MakeSelectInstrumentMessage c2 d12 := by
  subst hc h1 h2
  exact ⟨rfl, rfl⟩

/-- Witness for C9 at channel 0, data 60, data 127. -/
theorem C9_encoding_deterministic_witness :
    MakeSendNoteMessage 0 60 127 = MakeSendNoteMessage 0 60 127 ∧
    MakeSelectInstrumentMessage 0 60 = MakeSelectInstrumentMessage 0 60 :=
  C9_encoding_deterministic 0 0 60 60 127 127 rfl rfl rfl

/-- C10 counterexample: `MakeSendNoteMessage` at channel 16 yields status
byte `0x90` (144), not `0xA0` (160): bit 4 of `0x90` is already set, so the
high nibble stays 9 — the claim that any channel of 16 or more alters the
high nibble, with 16 yielding `0xA0`, is false at channel 16. -/
theorem C10_counterexample :
    (MakeSendNoteMessage 16 60 127).getD 0 0 = 144 ∧
    (MakeSendNoteMessage 16 60 127).getD 0 0 ≠ 160 ∧
    (MakeSendNoteMessage 16 60 127).getD 0 0 / 16 = 9 := by decide

set_option maxRecDepth 4096 in
/-- C10 (amended): in the unchecked path, for every channel value 0-255,
`MakeSendNoteMessage` performs no range check and returns byte 0 equal to the
bitwise OR of `0x90` with the full 8-bit channel value; for channels of 16 or
more the status byte's high nibble becomes `0x9 ||| (channel >>> 4)`, which
alters it exactly when `channel >>> 4` has a bit outside `0b1001` (channel 32
yields `0xB0`, while channel 16 still yields `0x90`); no error is raised and
the message is still transmitted. -/
theorem C10_unchecked_channel_or (channel pitch velocity : Nat)
    (hc : channel < 256) :
    (MakeSendNoteMessage channel pitch velocity).getD 0 0 =
      144 ||| channel ∧
    (MakeSendNoteMessage channel pitch velocity).getD 0 0 / 16 =
      9 ||| (channel >>> 4) ∧
    SendMidiNote channel pitch velocity =
      [Event.sent (MakeSendNoteMessage channel pitch velocity)] := by
  have key : ∀ c, c < 256 → ((9 <<< 4) % 256 ||| c) % 256 = 144 ||| c ∧
      (144 ||| c) / 16 = 9 ||| (c >>> 4) := by decide
  obtain ⟨k1, k2⟩ := key channel hc
  exact ⟨k1, by rw [show (MakeSendNoteMessage channel pitch velocity).getD 0 0
    = ((9 <<< 4) % 256 ||| channel) % 256 from rfl, k1, k2], rfl⟩

/-- Witness for C10 (amended) at channel 32: the status byte is
`0x90 ||| 32 = 0xB0`, the high nibble `0xB`, and the message is still
transmitted by the unchecked sender. -/
theorem C10_unchecked_channel_or_witness :
    ((MakeSendNoteMessage 32 60 127).getD 0 0 = 144 ||| 32 ∧
      (MakeSendNoteMessage 32 60 127).getD 0 0 / 16 = 9 ||| (32 >>> 4) ∧
      SendMidiNote 32 60 127 =
        [Event.sent (MakeSendNoteMessage 32 60 127)]) ∧
    (144 : Nat) ||| 32 = 176 ∧ (9 : Nat) ||| (32 >>> 4) = 11 :=
  ⟨C10_unchecked_channel_or 32 60 127 (by decide), by decide, by decide⟩

end MidiCpp
